import Mathlib

/-!
Verification development for the Shulman Lead-Queue application (LWC client).

The definitions below are a shallow embedding of the JavaScript sources:
  - lwc/leadQueueViewer/utils/leadQueueRefreshManager.js  (Refresh Bus)
  - lwc/leadQueueViewer/utils/timerManager.js             (Timer Subsystem)
  - lwc/leadQueueViewer/utils/dataProcessor.js            (Queue View Model data)
  - lwc/leadQueueViewer/leadQueueViewer.js                (Queue View Model)
  - lwc/claimRecordButton/claimRecordButton.js            (Assignment Client UI)

Machine numbers are modelled as Int (JS numbers in the relevant code paths are
integral millisecond timestamps and counters, far below 2^53, so no overflow or
rounding is reachable); JS `Math.floor(a / b)` is `Int.fdiv`, JS `%` on
integers is `Int.tmod` (sign of the dividend).  JS falsiness of strings is
`= ""`, of numbers `= 0`, of nullable objects `Option.isNone`.
-/

namespace LeadQueue

/-- JS `String.prototype.padStart(2, '0')`: pad on the left with zeros until
the length is at least 2. -/
def jsPadStart2 (s : String) : String :=
  if 2 ≤ s.length then s else String.mk (List.replicate (2 - s.length) '0') ++ s

/-! ## Timer Subsystem (timerManager.js) -/

/-- Shared elapsed-time rendering used by `TimerManager.calculateTimerValue`
and `TimerManager.getRecordAssignmentTimer` (timerManager.js lines 33-44 and
99-110): `totalSeconds = Math.floor(diffMs / 1000)`; negative values render as
`"00:00"`; otherwise minutes/seconds are zero-padded to width 2. -/
def formatElapsedClamped (diffMs : Int) : String :=
  let totalSeconds := Int.fdiv diffMs 1000
  if totalSeconds < 0 then "00:00"
  else
    jsPadStart2 (toString (Int.fdiv totalSeconds 60)) ++ ":"
      ++ jsPadStart2 (toString (Int.tmod totalSeconds 60))

/-- `TimerManager.calculateTimerValue(assignmentTimestamp)`: `null` (or the JS
falsy timestamp `0`) yields `null`; otherwise the clamped `MM:SS` rendering of
`component.currentTime - assignedTime`. -/
def calculateTimerValue (currentTime : Int) (assignmentTimestamp : Option Int) :
    Option String :=
  match assignmentTimestamp with
  | none => none
  | some ts => if ts = 0 then none else some (formatElapsedClamped (currentTime - ts))

/-- `TimerManager.getRecordAssignmentTimer(recordId, assignedTo, assignedTimestamp)`:
empty for unassigned records; the clamped `MM:SS` elapsed rendering when a
(truthy) server timestamp is present; the fallback label `"Assigned"` otherwise. -/
def tmGetRecordAssignmentTimer (currentTime : Int) (assignedTo : String)
    (assignedTimestamp : Option Int) : String :=
  if assignedTo = "" then ""
  else
    match assignedTimestamp with
    | some ts => if ts = 0 then "Assigned" else formatElapsedClamped (currentTime - ts)
    | none => "Assigned"

/-- The per-tab session-storage assignment record
(`sessionStorage` payload `{recordId, assignedAt}` written by
`storeAssignmentTimestamp` in leadQueueViewer.js). -/
structure StoredAssignment where
  recordId : String
  assignedAt : Int
deriving Repr, DecidableEq

/-- Legacy `LeadQueueViewer.getRecordAssignmentTimer(recordId, assignedTo)`
(leadQueueViewer.js lines 965-996, session-storage variant): when the stored
assignment matches the record, renders `minutes:seconds` from
`Math.floor(totalSeconds / 60)` and `totalSeconds % 60` WITHOUT clamping
negative differences; otherwise falls back to `"Assigned"`. -/
def legacyGetRecordAssignmentTimer (currentTime : Int) (recordId : String)
    (assignedTo : String) (stored : Option StoredAssignment) : String :=
  if assignedTo = "" then ""
  else
    match stored with
    | some sdata =>
      if sdata.recordId = recordId ∧ sdata.assignedAt ≠ 0 then
        let totalSeconds := Int.fdiv (currentTime - sdata.assignedAt) 1000
        jsPadStart2 (toString (Int.fdiv totalSeconds 60)) ++ ":"
          ++ jsPadStart2 (toString (Int.tmod totalSeconds 60))
      else "Assigned"
    | none => "Assigned"

/-! ## Refresh Bus (leadQueueRefreshManager.js, storage/broadcast variant) -/

/-- A refresh-bus signal payload `{action, originId, source, timestamp}`. -/
structure RefreshPayload where
  action : String
  originId : String
  source : String
  timestamp : Int
deriving Repr, DecidableEq

/-- The slice of `LeadQueueRefreshManager` state that the signal handlers
read and write: the client origin token `lmsOriginId`, the storage key, the
single pending debounce ticket (`eventRefreshTimeout != null`), and a count of
`onRefresh` invocations used to observe reconciliations. -/
structure RefreshManagerState where
  lmsOriginId : String
  storageKey : String
  eventRefreshPending : Bool
  refreshCount : Nat
deriving Repr, DecidableEq

/-- `scheduleEventRefresh()` (leadQueueRefreshManager.js lines 127-137): if a
debounce timeout is already pending, do nothing; otherwise arm the single
500ms ticket. -/
def scheduleEventRefresh (m : RefreshManagerState) : RefreshManagerState :=
  if m.eventRefreshPending then m else { m with eventRefreshPending := true }

/-- The 500ms debounce timeout firing: clears the ticket and invokes
`onRefresh` (observed as `refreshCount + 1`). Fires only when a ticket is
pending. -/
def fireEventRefresh (m : RefreshManagerState) : RefreshManagerState :=
  if m.eventRefreshPending then
    { m with eventRefreshPending := false, refreshCount := m.refreshCount + 1 }
  else m

/-- `handleLmsMessage(payload)` (lines 160-165): discard falsy payloads and
payloads whose `originId` equals this client's own; otherwise schedule. -/
def handleLmsMessage (m : RefreshManagerState) (payload : Option RefreshPayload) :
    RefreshManagerState :=
  match payload with
  | none => m
  | some p => if p.originId = m.lmsOriginId then m else scheduleEventRefresh m

/-- `handleBroadcastMessage(payload)` (lines 256-261): identical filtering to
the LMS handler, for the BroadcastChannel transport. -/
def handleBroadcastMessage (m : RefreshManagerState) (payload : Option RefreshPayload) :
    RefreshManagerState :=
  match payload with
  | none => m
  | some p => if p.originId = m.lmsOriginId then m else scheduleEventRefresh m

/-- Result of `JSON.parse(event.newValue)` in `handleStorageEvent`: the parse
may throw (`malformed`) or produce a possibly-null payload. -/
inductive StorageValue where
  | malformed : StorageValue
  | parsed : Option RefreshPayload → StorageValue
deriving Repr, DecidableEq

/-- A `storage` DOM event as observed by the handler: its key and its
(possibly absent) new value. -/
structure StorageEventData where
  key : String
  newValue : Option StorageValue
deriving Repr, DecidableEq

/-- `handleStorageEvent(event)` (lines 198-211): ignore events for other keys,
absent new values, malformed JSON, and self-origin payloads; schedule
otherwise. -/
def handleStorageEvent (m : RefreshManagerState) (event : Option StorageEventData) :
    RefreshManagerState :=
  match event with
  | none => m
  | some e =>
    if e.key ≠ m.storageKey then m
    else
      match e.newValue with
      | none => m
      | some StorageValue.malformed => m
      | some (StorageValue.parsed p) =>
        match p with
        | some payload =>
          if payload.originId = m.lmsOriginId then m else scheduleEventRefresh m
        | none => scheduleEventRefresh m

/-! ## Change-feed pre-filtering (handleCdcMessage) -/

/-- The fixed allow-list `cdcRelevantFields` (leadQueueRefreshManager.js
lines 11-27; identical in claimRecordButton.js lines 23-39). -/
def cdcRelevantFields : List String :=
  [ "litify_pm__Status__c"
  , "Priority_Score__c"
  , "Queue_Case_Type__c"
  , "Case_Type__c"
  , "Type__c"
  , "Call_at_Date__c"
  , "Follow_Up_Date_Time__c"
  , "Appointment_Date__c"
  , "litify_pm__Sign_Up_Method__c"
  , "Qualification_Status__c"
  , "Test_Record__c"
  , "litify_pm__Display_Name__c"
  , "Referred_By_Name__c"
  , "litify_pm__Phone__c"
  , "Name"
  ]

/-- The `ChangeEventHeader` of a change-data-capture message: `changeType` may
be absent or empty (JS falsy), `changedFields` may be absent (not an array). -/
structure ChangeEventHeader where
  changeType : Option String
  changedFields : Option (List String)
deriving Repr, DecidableEq

/-- Whether `handleCdcMessage(message)` (leadQueueRefreshManager.js lines
139-158, same logic in claimRecordButton.js lines 150-169) invokes
`scheduleEventRefresh`: no header means no refresh; a truthy non-UPDATE
`changeType` always refreshes; otherwise a missing or empty `changedFields`
list refreshes, and a nonempty list refreshes exactly when it meets the
allow-list. -/
def handleCdcMessage (header : Option ChangeEventHeader) : Bool :=
  match header with
  | none => false
  | some h =>
    if ((match h.changeType with | none => false | some ct => ct != "")
        && h.changeType != some "UPDATE") = true then true
    else
      match h.changedFields with
      | none => true
      | some fields =>
        if fields = [] then true
        else fields.any (fun f => cdcRelevantFields.contains f)

/-! ## Queue View Model data (dataProcessor.js, leadQueueViewer.js) -/

/-- Queue aggregate counts (`data.stats`, `SharedUtils.getDefaultStats()`). -/
structure QueueStats where
  totalRecords : Nat
  highPriorityCount : Nat
  inContactCount : Nat
  noContactCount : Nat
  retainerSentCount : Nat
deriving Repr, DecidableEq

/-- `{ totalRecords: 0, highPriorityCount: 0, inContactCount: 0,
noContactCount: 0, retainerSentCount: 0 }`. -/
def defaultStats : QueueStats := ⟨0, 0, 0, 0, 0⟩

/-- Filter dropdown option lists (`data.filters`). -/
structure FilterOptions where
  statusOptions : List String
  caseTypeOptions : List String
deriving Repr, DecidableEq

/-- `{ statusOptions: [], caseTypeOptions: [] }`. -/
def emptyFilterOptions : FilterOptions := ⟨[], []⟩

/-- The server-side record fields read by `processQueueResponse`
(opaque pass-through display strings; empty string models a JS falsy field). -/
structure ServerRecord where
  id : String
  name : String
  displayName : String
  referredByName : String
  status : String
  caseTypeReporting : String
  qualificationStatus : String
  callAtDate : String
  phone : String
deriving Repr, DecidableEq

/-- One entry of `data.records`: the record plus its lease annotations
(`assignedTo` empty means unassigned; `assignedTimestamp` is the
server-pushed acquisition time in epoch milliseconds). -/
structure ServerQueueRecord where
  record : ServerRecord
  assignedTo : String
  assignedTimestamp : Option Int
deriving Repr, DecidableEq

/-- A successful queue-data payload (`data.stats`, `data.filters`,
`data.tileStatusGroups`, `data.records`). -/
structure QueueData where
  stats : Option QueueStats
  filters : Option FilterOptions
  tileStatusGroups : List (String × List String)
  records : List ServerQueueRecord
deriving Repr, DecidableEq

/-- A processed table row (the projection entry built by
`DataProcessor.processQueueResponse`). -/
structure QueueRow where
  id : String
  name : String
  displayName : String
  referredByName : String
  status : String
  caseType : String
  qualificationStatus : String
  callDateTime : String
  phone : String
  assignedTo : String
  assignmentTimer : String
  assignmentTimestamp : Option Int
  priorityRank : Nat
  recordUrl : String
deriving Repr, DecidableEq

/-- The component state touched by reconciliation, filtering, the error
handler and the timer subsystem (leadQueueViewer.js fields). `timerActive`
models `timerInterval != null`. -/
structure ViewerState where
  filterRequestId : Nat
  statusFilter : String
  caseTypeFilter : String
  dueDateFilter : String
  activeTileFilter : Option String
  tileStatusGroups : List (String × List String)
  records : List QueueRow
  originalRecords : List QueueRow
  queueStats : QueueStats
  originalStats : QueueStats
  filterOptions : FilterOptions
  hasAssignments : Bool
  isAssigning : Bool
  isReleasing : Bool
  currentTime : Int
  timerActive : Bool
deriving Repr, DecidableEq

/-- The row constructed for the record at index `i` of `data.records`
(dataProcessor.js lines 42-61): the display id gains an `-assigned` suffix for
leased records, `priorityRank` is the 1-based index, and the timer cell comes
from `TimerManager.getRecordAssignmentTimer`. Locale rendering of
`Call_at_Date__c` is kept as an opaque pass-through. -/
def buildQueueRow (currentTime : Int) (i : Nat) (q : ServerQueueRecord) : QueueRow :=
  { id := if q.assignedTo = "" then q.record.id else q.record.id ++ "-assigned"
  , name := if q.record.name = "" then "Unknown" else q.record.name
  , displayName := q.record.displayName
  , referredByName := q.record.referredByName
  , status := q.record.status
  , caseType := q.record.caseTypeReporting
  , qualificationStatus := q.record.qualificationStatus
  , callDateTime := q.record.callAtDate
  , phone := q.record.phone
  , assignedTo := q.assignedTo
  , assignmentTimer := tmGetRecordAssignmentTimer currentTime q.assignedTo q.assignedTimestamp
  , assignmentTimestamp := q.assignedTimestamp
  , priorityRank := i + 1
  , recordUrl := "/lightning/r/litify_pm__Intake__c/" ++ q.record.id ++ "/view"
  }

/-- The records shown after `DataProcessor.applyClientSideFilter`
(dataProcessor.js lines 86-98): with an active tile filter whose status group
is present and nonempty, keep only matching statuses; otherwise all original
records. -/
def tileFilterRecords (s : ViewerState) : List QueueRow :=
  match s.activeTileFilter with
  | some f =>
    match s.tileStatusGroups.find? (fun g => g.1 == f) with
    | some g =>
      if g.2 = [] then s.originalRecords
      else s.originalRecords.filter (fun r => g.2.contains r.status)
    | none => s.originalRecords
  | none => s.originalRecords

/-- `applyClientSideFilter()`: replaces the working copy `records` with the
tile-filtered view of `originalRecords`. -/
def applyClientSideFilter (s : ViewerState) : ViewerState :=
  { s with records := tileFilterRecords s }

/-- `DataProcessor.processQueueResponse(data)` (dataProcessor.js lines 16-69):
store stats (tiles always show the unfiltered totals), filter options and tile
status groups, rebuild `originalRecords` wholesale from the payload, copy it
into `records`, then re-apply the active tile filter. -/
def processQueueResponse (s : ViewerState) (data : QueueData) : ViewerState :=
  let stats := data.stats.getD defaultStats
  let rows := data.records.mapIdx (fun i q => buildQueueRow s.currentTime i q)
  applyClientSideFilter
    { s with originalStats := stats
           , queueStats := stats
           , filterOptions := data.filters.getD emptyFilterOptions
           , tileStatusGroups := data.tileStatusGroups
           , originalRecords := rows
           , records := rows }

/-! ## Reconciliation sequencing (loadQueueData, handleFilterChange) -/

/-- Issuing one `loadQueueData()` request (leadQueueViewer.js modular variant,
body start): `this.filterRequestId++` and capture
`currentRequestId = this.filterRequestId` as the request's tag. Returns the
post-issue state and the tag. -/
def beginLoadQueueData (s : ViewerState) : ViewerState × Nat :=
  ({ s with filterRequestId := s.filterRequestId + 1 }, s.filterRequestId + 1)

/-- A `loadQueueData()` response arriving with tag `currentRequestId`:
processed only when `this.filterRequestId === currentRequestId`, i.e. when no
newer request has been issued; otherwise it is discarded unchanged. -/
def completeLoadQueueData (s : ViewerState) (currentRequestId : Nat)
    (data : QueueData) : ViewerState :=
  if s.filterRequestId = currentRequestId then processQueueResponse s data else s

/-- The synchronous part of `handleFilterChange(event)` (leadQueueViewer.js
lines 642-667): `this.filterRequestId++` invalidates every in-flight
response before the 300ms debounce installs the new filter value. -/
def handleFilterChangeInvalidate (s : ViewerState) : ViewerState :=
  { s with filterRequestId := s.filterRequestId + 1 }

/-- The error branch of `wiredQueue` / the catch branch of `loadQueueData`
(leadQueueViewer.js lines 165-184): when the response's tag is still current,
clear the data arrays, stats and filter options and reset the operational
flags, leaving the user-selected filter fields untouched; a stale error
response is discarded. -/
def wiredQueueError (s : ViewerState) (currentRequestId : Nat) : ViewerState :=
  if s.filterRequestId = currentRequestId then
    { s with records := []
           , originalRecords := []
           , originalStats := defaultStats
           , queueStats := defaultStats
           , filterOptions := emptyFilterOptions
           , hasAssignments := false
           , isAssigning := false
           , isReleasing := false }
  else s

/-! ## Timer lifecycle (timerManager.js, leadQueueViewer.js connectedCallback) -/

/-- JS truthiness of an optional millisecond timestamp (`0` is falsy). -/
def truthyTimestamp : Option Int → Bool
  | none => false
  | some t => t != 0

/-- `TimerManager.refreshTableTimers()` (timerManager.js lines 119-149):
recompute the timer cell of every assigned row, preferring the row's own
timestamp and falling back to the matching `originalRecords` entry; unassigned
rows are left untouched. -/
def refreshTableTimers (s : ViewerState) : ViewerState :=
  { s with records := s.records.map (fun r =>
      if r.assignedTo = "" then r
      else
        let ts := if truthyTimestamp r.assignmentTimestamp then r.assignmentTimestamp
          else
            match s.originalRecords.find? (fun o => o.id == r.id) with
            | some o => o.assignmentTimestamp
            | none => none
        { r with assignmentTimer := tmGetRecordAssignmentTimer s.currentTime r.assignedTo ts }) }

/-- `TimerManager.startTimerUpdates()` (timerManager.js lines 154-169): clear
any existing interval, set `currentTime` to now, and start the fixed 1-second
interval — unconditionally, with no inspection of the projection. -/
def startTimerUpdates (now : Int) (s : ViewerState) : ViewerState :=
  { s with timerActive := true, currentTime := now }

/-- `TimerManager.stopTimerUpdates()` (timerManager.js lines 174-179): clear
the interval. Called only from `disconnectedCallback`. -/
def stopTimerUpdates (s : ViewerState) : ViewerState :=
  { s with timerActive := false }

/-- One firing of the 1-second interval installed by `startTimerUpdates`:
refresh `currentTime` and recompute the table timer cells. -/
def timerTick (now : Int) (s : ViewerState) : ViewerState :=
  refreshTableTimers { s with currentTime := now }

/-- The timer-lifecycle slice of `connectedCallback()` (leadQueueViewer.js
lines 309-333 / modular variant lines 132-158): clear any stale interval, then
`startTimerUpdates` — before and regardless of any queue data or lease state. -/
def connectedCallbackTimer (now : Int) (s : ViewerState) : ViewerState :=
  startTimerUpdates now (stopTimerUpdates s)

/-- How many rows of a projection are currently leased (`assignedTo` truthy). -/
def leasedRecordCount (rows : List QueueRow) : Nat :=
  (rows.filter (fun r => r.assignedTo != "")).length

/-! ## Outbound publishing (leadQueueRefreshManager.js publish paths) -/

/-- The three refresh-bus transports. -/
inductive BusChannel where
  | lms : BusChannel
  | broadcast : BusChannel
  | storage : BusChannel
deriving Repr, DecidableEq

/-- One outgoing refresh signal as written to a transport: every publish path
builds `{action, originId: this.lmsOriginId, source: 'leadQueueViewer',
timestamp: Date.now()}`. -/
structure OutboundSignal where
  channel : BusChannel
  action : String
  originId : String
  source : String
deriving Repr, DecidableEq

/-- Which transports are usable: `messageContext` (LMS wired), an open
`broadcastChannel`, and `storageSupported` (window/localStorage present). -/
structure ChannelAvailability where
  messageContext : Bool
  broadcastChannel : Bool
  storageSupported : Bool
deriving Repr, DecidableEq

/-- `publishToStorage(action)` (leadQueueRefreshManager.js lines 181-196):
a localStorage write of the tagged payload when storage is supported,
nothing otherwise. -/
def publishToStorage (env : ChannelAvailability) (originId action : String) :
    List OutboundSignal :=
  if env.storageSupported then
    [⟨BusChannel.storage, action, originId, "leadQueueViewer"⟩]
  else []

/-- `publishToBroadcast(action)` (lines 240-254): a `postMessage` of the
tagged payload when the broadcast channel is open, nothing otherwise. -/
def publishToBroadcast (env : ChannelAvailability) (originId action : String) :
    List OutboundSignal :=
  if env.broadcastChannel then
    [⟨BusChannel.broadcast, action, originId, "leadQueueViewer"⟩]
  else []

/-- `publish(action)` (lines 66-79): without a message context the manager
falls back to the storage write ALONE and returns; with one it publishes on
LMS, then broadcast, then storage. -/
def publishRefresh (env : ChannelAvailability) (originId action : String) :
    List OutboundSignal :=
  if env.messageContext = false then publishToStorage env originId action
  else
    ⟨BusChannel.lms, action, originId, "leadQueueViewer"⟩
      :: (publishToBroadcast env originId action ++ publishToStorage env originId action)

/-! ## Claim / release success paths and their side effects -/

/-- An observable side effect of a claim/release handler. -/
inductive UiEffect where
  | publishBus : String → UiEffect
  | toast : String → String → String → UiEffect
  | navigate : String → UiEffect
  | storeTimestamp : String → UiEffect
  | clearTimestamp : UiEffect
  | refreshQueueData : UiEffect
  | checkAssignments : UiEffect
  | dispatchDomEvent : String → UiEffect
deriving Repr, DecidableEq

/-- The `{success, message, recordId}` result of the assign Apex calls. -/
structure AssignResult where
  success : Bool
  message : String
  recordId : String
deriving Repr, DecidableEq

/-- Effects of `ClaimRecordButton.handleClaimRecord()` (claimRecordButton.js
lines 225-257): guard on a present record id and a healthy cache; on a
successful assign, toast, `publishLmsMessage('assign')` and refresh the
assignment state; on a business failure, a warning toast only. -/
def handleClaimRecordEffects (recordId : Option String) (cacheReady : Bool)
    (result : AssignResult) : List UiEffect :=
  match recordId with
  | none => [UiEffect.toast "Error" "No record ID available" "error"]
  | some _ =>
    if cacheReady = false then
      [UiEffect.toast "Error" "Platform Cache not configured. Please contact your administrator." "error"]
    else if result.success then
      [ UiEffect.toast "Success" "Record claimed successfully" "success"
      , UiEffect.publishBus "assign"
      , UiEffect.checkAssignments ]
    else [UiEffect.toast "Warning" result.message "warning"]

/-- Effects of `ClaimRecordButton.handleReleaseRecord()` (claimRecordButton.js
lines 259-281): guard on cache health; when the release round-trip succeeds,
toast, `publishLmsMessage('release')` and refresh assignment state; on a
thrown error, an error toast only. -/
def handleReleaseRecordEffects (cacheReady serverOk : Bool) : List UiEffect :=
  if cacheReady = false then
    [UiEffect.toast "Error" "Platform Cache not configured. Please contact your administrator." "error"]
  else if serverOk then
    [ UiEffect.toast "Success" "Record released successfully" "success"
    , UiEffect.publishBus "release"
    , UiEffect.checkAssignments ]
  else [UiEffect.toast "Error" "Failed to release record" "error"]

/-- Effects of `LeadQueueViewer.assignRecordToUser(recordId)`
(leadQueueViewer.js lines 564-596): on success, navigate to the record, store
the session timestamp, refresh queue data and assignments in parallel, and
dispatch the `assignmentchanged` DOM event — there is no refresh-bus publish
on this path. On a business failure, a warning toast. -/
def assignRecordToUserEffects (recordId : String) (result : AssignResult) :
    List UiEffect :=
  if result.success then
    [ UiEffect.navigate recordId
    , UiEffect.storeTimestamp recordId
    , UiEffect.refreshQueueData
    , UiEffect.checkAssignments
    , UiEffect.dispatchDomEvent "assignmentchanged" ]
  else [UiEffect.toast "Warning" result.message "warning"]

/-- Effects of `LeadQueueViewer.handleReleaseAssignments()` (leadQueueViewer.js
lines 598-619): on a successful release round-trip, toast, clear the session
timestamp, refresh queue data and assignments, and dispatch
`assignmentchanged` — again with no refresh-bus publish. -/
def handleReleaseAssignmentsEffects (serverOk : Bool) : List UiEffect :=
  if serverOk then
    [ UiEffect.toast "Success" "Released all assignments" "success"
    , UiEffect.clearTimestamp
    , UiEffect.refreshQueueData
    , UiEffect.checkAssignments
    , UiEffect.dispatchDomEvent "assignmentchanged" ]
  else [UiEffect.toast "Error" "Release failed" "error"]

/-- How many refresh-bus publishes an effect list performs. -/
def busPublishCount (effects : List UiEffect) : Nat :=
  (effects.filter (fun e => match e with | UiEffect.publishBus _ => true | _ => false)).length

/-! ## Release idempotence (handleReleaseAssignments, clearAssignmentTimestamp) -/

/-- Modelled from the spec: the Apex service method
`LeadQueueService.releaseUserAssignments` is not part of the corpus (only its
callers are). Per the spec, `release(holderId|recordId)` is idempotent —
releasing an already-absent lease is success, not an error. The store drops
every lease of the holder and reports success. -/
def releaseUserAssignments (store : List (String × String)) (holder : String) :
    List (String × String) × Bool :=
  (store.filter (fun l => l.1 != holder), true)

/-- The client state read and written by the release flow: the derived
`hasAssignments` flag, the per-tab session-storage assignment, the
`isReleasing` operational flag, and the (spec-modelled) lease store keyed by
holder. -/
structure ReleaseClientState where
  hasAssignments : Bool
  sessionAssignment : Option StoredAssignment
  isReleasing : Bool
  store : List (String × String)
  holder : String
deriving Repr, DecidableEq

/-- `clearAssignmentTimestamp()` (leadQueueViewer.js lines 955-963): remove
the session-storage entry; removal of an absent key is a no-op success. -/
def clearAssignmentTimestamp (s : ReleaseClientState) : ReleaseClientState :=
  { s with sessionAssignment := none }

/-- `handleReleaseAssignments()` (leadQueueViewer.js lines 598-619) as a state
transform: release every lease of the holder at the store, set
`hasAssignments = false`, clear the session timestamp, re-check assignments
against the (now lease-free) store, and drop `isReleasing` in the finally
block. The Bool is the success of the release round-trip. -/
def handleReleaseAssignmentsRun (s : ReleaseClientState) : ReleaseClientState × Bool :=
  let rel := releaseUserAssignments s.store s.holder
  ( clearAssignmentTimestamp
      { s with store := rel.1, hasAssignments := false, isReleasing := false }
  , rel.2 )

/-! ## Sample values used to instantiate theorems with hypotheses -/

/-- A freshly constructed refresh manager: no pending debounce ticket, no
reconciliations performed yet. -/
def sampleManager : RefreshManagerState :=
  { lmsOriginId := "tab-1", storageKey := "leadQueueRefresh"
  , eventRefreshPending := false, refreshCount := 0 }

/-- A refresh signal published by the same tab as `sampleManager`. -/
def samplePayload : RefreshPayload :=
  { action := "assign", originId := "tab-1", source := "leadQueueViewer", timestamp := 0 }

/-- A freshly connected viewer with an empty projection. -/
def idleViewerState : ViewerState :=
  { filterRequestId := 0, statusFilter := "", caseTypeFilter := "", dueDateFilter := ""
  , activeTileFilter := none, tileStatusGroups := [], records := [], originalRecords := []
  , queueStats := defaultStats, originalStats := defaultStats
  , filterOptions := emptyFilterOptions
  , hasAssignments := false, isAssigning := false, isReleasing := false
  , currentTime := 0, timerActive := false }

/-- An empty-but-successful queue payload. -/
def sampleQueueData : QueueData :=
  { stats := none, filters := none, tileStatusGroups := [], records := [] }

/-! ## Helper lemmas -/

lemma scheduleEventRefresh_pending_true (m : RefreshManagerState) :
    (scheduleEventRefresh m).eventRefreshPending = true := by
  by_cases h : m.eventRefreshPending <;> simp [scheduleEventRefresh, h]

lemma scheduleEventRefresh_idem (m : RefreshManagerState) :
    scheduleEventRefresh (scheduleEventRefresh m) = scheduleEventRefresh m := by
  by_cases h : m.eventRefreshPending <;> simp [scheduleEventRefresh, h]

lemma scheduleEventRefresh_iterate (n : Nat) (m : RefreshManagerState) :
    scheduleEventRefresh^[n + 1] m = scheduleEventRefresh m := by
  induction n generalizing m with
  | zero => simp
  | succ k ih =>
    rw [Function.iterate_succ_apply, ih (scheduleEventRefresh m), scheduleEventRefresh_idem]

/-! ## Claim theorems -/

/-- C3: an inbound refresh signal on any channel (same-tab pub/sub, cross-tab
storage event, broadcast channel) whose `originId` equals this client's own
`lmsOriginId` leaves the manager state unchanged: no reconciliation is
scheduled or performed. -/
theorem selfSignals_never_schedule (m : RefreshManagerState) (p : RefreshPayload)
    (hself : p.originId = m.lmsOriginId) :
    handleLmsMessage m (some p) = m
    ∧ handleBroadcastMessage m (some p) = m
    ∧ ∀ k : String,
        handleStorageEvent m (some ⟨k, some (StorageValue.parsed (some p))⟩) = m := by
  refine ⟨by simp [handleLmsMessage, hself], by simp [handleBroadcastMessage, hself], ?_⟩
  intro k
  by_cases hk : k = m.storageKey
  · simp [handleStorageEvent, hk, hself]
  · simp [handleStorageEvent, hk]

/-- Witness for C3 at a concrete manager and self-origin payload. -/
theorem selfSignals_never_schedule_witness :
    handleLmsMessage sampleManager (some samplePayload) = sampleManager :=
  (selfSignals_never_schedule sampleManager samplePayload rfl).1

/-- C8: scheduling is idempotent while a ticket is pending: any burst of
`n ≥ 1` non-self signals arriving before the 500ms debounce fires produces
exactly one `onRefresh` invocation and leaves no pending ticket, and a second
`scheduleEventRefresh` on an already-scheduled manager is a no-op. -/
theorem scheduleEventRefresh_coalesces (m : RefreshManagerState) (n : Nat)
    (hpend : m.eventRefreshPending = false) (hn : 1 ≤ n) :
    (fireEventRefresh (scheduleEventRefresh^[n] m)).refreshCount = m.refreshCount + 1
    ∧ (fireEventRefresh (scheduleEventRefresh^[n] m)).eventRefreshPending = false
    ∧ scheduleEventRefresh (scheduleEventRefresh m) = scheduleEventRefresh m := by
  obtain ⟨k, rfl⟩ : ∃ k, n = k + 1 := ⟨n - 1, by omega⟩
  rw [scheduleEventRefresh_iterate]
  exact ⟨by simp [scheduleEventRefresh, fireEventRefresh, hpend],
    by simp [scheduleEventRefresh, fireEventRefresh, hpend],
    scheduleEventRefresh_idem m⟩

/-- Witness for C8: a burst of three schedules on an idle manager fires one
reconciliation. -/
theorem scheduleEventRefresh_coalesces_witness :
    (fireEventRefresh (scheduleEventRefresh^[3] sampleManager)).refreshCount
      = sampleManager.refreshCount + 1 :=
  (scheduleEventRefresh_coalesces sampleManager 3 rfl (by decide)).1

/-- C4 counterexample: an UPDATE change whose `changedFields` list is empty —
hence disjoint from the allow-list — still schedules a reconciliation
(`handleCdcMessage` treats a missing or empty field list conservatively), so
the claimed equivalence fails. -/
theorem cdc_disjoint_update_schedules_counterexample :
    handleCdcMessage (some ⟨some "UPDATE", some []⟩) = true
    ∧ (([] : List String).any (fun f => cdcRelevantFields.contains f)) = false := by
  decide

/-- C4 (amended): a truthy non-UPDATE change always schedules; an UPDATE
change carrying a NONEMPTY `changedFields` list schedules iff the list meets
the allow-list; an UPDATE change with a missing or empty `changedFields` list
also schedules. -/
theorem cdc_prefilter_amended (h : ChangeEventHeader) :
    (∀ ct : String, h.changeType = some ct → ct ≠ "" → ct ≠ "UPDATE" →
      handleCdcMessage (some h) = true)
    ∧ (∀ fields : List String, h.changeType = some "UPDATE" →
        h.changedFields = some fields → fields ≠ [] →
        (handleCdcMessage (some h) = true
          ↔ fields.any (fun f => cdcRelevantFields.contains f) = true))
    ∧ (h.changeType = some "UPDATE" →
        (h.changedFields = none ∨ h.changedFields = some ([] : List String)) →
        handleCdcMessage (some h) = true) := by
  obtain ⟨ct0, cf0⟩ := h
  refine ⟨?_, ?_, ?_⟩
  · rintro ct rfl hne hnu
    simp [handleCdcMessage, hne, hnu]
  · rintro fields rfl rfl hne
    simp [handleCdcMessage, hne]
  · rintro rfl (rfl | rfl) <;> simp [handleCdcMessage]

/-- Witness for C4 at a concrete DELETE-type change. -/
theorem cdc_prefilter_amended_witness :
    handleCdcMessage (some ⟨some "DELETE", none⟩) = true :=
  (cdc_prefilter_amended ⟨some "DELETE", none⟩).1 "DELETE" rfl (by decide) (by decide)

/-- C5 counterexample: a component connected with an empty projection — zero
leased records — nevertheless has the 1-second interval running, so the tick
does not run "only while at least one record in the current projection is
leased". -/
theorem timer_runs_without_leases_counterexample :
    (connectedCallbackTimer 0 idleViewerState).timerActive = true
    ∧ leasedRecordCount (connectedCallbackTimer 0 idleViewerState).records = 0 := by
  decide

/-- C5 (amended): the 1-second tick is unconditional: `connectedCallback`
starts it regardless of the projection, ticking and reconciliation never stop
or start it, and only `stopTimerUpdates` (called from `disconnectedCallback`)
stops it. -/
theorem timer_lifecycle_amended (s : ViewerState) (now : Int) (d : QueueData) :
    (connectedCallbackTimer now s).timerActive = true
    ∧ (timerTick now s).timerActive = s.timerActive
    ∧ (processQueueResponse s d).timerActive = s.timerActive
    ∧ (stopTimerUpdates s).timerActive = false :=
  ⟨rfl, rfl, rfl, rfl⟩

/-- C6 counterexample: the session-storage variant of
`getRecordAssignmentTimer` does not clamp a negative elapsed time: with the
assignment 5 seconds in the future it renders `"-1:-5"`, not `"00:00"`. -/
theorem legacy_timer_negative_not_clamped_counterexample :
    legacyGetRecordAssignmentTimer 0 "rec1" "Alice" (some ⟨"rec1", 5000⟩) = "-1:-5"
    ∧ legacyGetRecordAssignmentTimer 0 "rec1" "Alice" (some ⟨"rec1", 5000⟩) ≠ "00:00" := by
  decide

/-- C6 (amended): the `TimerManager` rendering of an assigned record with a
truthy timestamp clamps every negative `now - acquiredAt` to `"00:00"`, and
for a nonnegative difference renders `MM:SS` with unbounded zero-padded
minutes: the elapsed whole seconds decompose as `60 * m + s2` with `s2 < 60`
and the display is exactly those two zero-padded components. The
session-storage legacy variant lacks the clamp. -/
theorem timer_display_amended (now ts : Int) (assignedTo : String)
    (hassigned : assignedTo ≠ "") (hts : ts ≠ 0) :
    (now - ts < 0 → tmGetRecordAssignmentTimer now assignedTo (some ts) = "00:00")
    ∧ (0 ≤ now - ts →
        ∃ m s2 : Int, 0 ≤ m ∧ 0 ≤ s2 ∧ s2 < 60
          ∧ (now - ts) / 1000 = 60 * m + s2
          ∧ tmGetRecordAssignmentTimer now assignedTo (some ts)
              = jsPadStart2 (toString m) ++ ":" ++ jsPadStart2 (toString s2)) := by
  have h1000 : (0 : Int) ≤ 1000 := by norm_num
  have h60 : (0 : Int) ≤ 60 := by norm_num
  constructor
  · intro hneg
    simp only [tmGetRecordAssignmentTimer, formatElapsedClamped, if_neg hassigned, if_neg hts]
    rw [if_pos]
    rw [Int.fdiv_eq_ediv _ h1000]
    omega
  · intro hpos
    refine ⟨((now - ts) / 1000) / 60, ((now - ts) / 1000) % 60,
      by omega, by omega, by omega, by omega, ?_⟩
    simp only [tmGetRecordAssignmentTimer, formatElapsedClamped, if_neg hassigned, if_neg hts]
    rw [if_neg]
    · rw [Int.fdiv_eq_ediv _ h1000, Int.fdiv_eq_ediv _ h60,
        Int.tmod_eq_emod (by omega) h60]
    · rw [Int.fdiv_eq_ediv _ h1000]
      omega

/-- Witness for C6 at a concrete lease held for 61 seconds. -/
theorem timer_display_amended_witness :
    ∃ m s2 : Int, 0 ≤ m ∧ 0 ≤ s2 ∧ s2 < 60
      ∧ ((62000 : Int) - 1000) / 1000 = 60 * m + s2
      ∧ tmGetRecordAssignmentTimer 62000 "Alice" (some 1000)
          = jsPadStart2 (toString m) ++ ":" ++ jsPadStart2 (toString s2) :=
  (timer_display_amended 62000 1000 "Alice" (by decide) (by decide)).2 (by decide)

/-- A response whose tag differs from the current request id is discarded
unchanged. -/
lemma completeLoadQueueData_of_ne (s : ViewerState) (t : Nat) (d : QueueData)
    (h : s.filterRequestId ≠ t) : completeLoadQueueData s t d = s := by
  simp [completeLoadQueueData, h]

/-- A response whose tag is still the current request id is processed. -/
lemma completeLoadQueueData_of_eq (s : ViewerState) (t : Nat) (d : QueueData)
    (h : s.filterRequestId = t) :
    completeLoadQueueData s t d = processQueueResponse s d := by
  simp [completeLoadQueueData, h]

/-- C1: with request A issued, then a filter change bumping the sequence
number, then request B issued, applying B's response first and A's stale
response afterwards leaves exactly the state produced by B's response alone —
A is discarded; and in general a response is applied only when its tag equals
the most recently issued request id. -/
theorem loadQueueData_latest_wins (s0 : ViewerState) (dA dB : QueueData) :
    completeLoadQueueData
        (completeLoadQueueData
          (beginLoadQueueData (handleFilterChangeInvalidate (beginLoadQueueData s0).1)).1
          (beginLoadQueueData (handleFilterChangeInvalidate (beginLoadQueueData s0).1)).2 dB)
        (beginLoadQueueData s0).2 dA
      = processQueueResponse
          (beginLoadQueueData (handleFilterChangeInvalidate (beginLoadQueueData s0).1)).1 dB
    ∧ ∀ (s : ViewerState) (t : Nat) (d : QueueData),
        s.filterRequestId ≠ t → completeLoadQueueData s t d = s := by
  constructor
  · rw [completeLoadQueueData_of_eq
      (beginLoadQueueData (handleFilterChangeInvalidate (beginLoadQueueData s0).1)).1
      (beginLoadQueueData (handleFilterChangeInvalidate (beginLoadQueueData s0).1)).2 dB rfl]
    apply completeLoadQueueData_of_ne
    have h1 : (processQueueResponse
        ((beginLoadQueueData (handleFilterChangeInvalidate (beginLoadQueueData s0).1)).1)
        dB).filterRequestId = s0.filterRequestId + 1 + 1 + 1 := rfl
    have h2 : (beginLoadQueueData s0).2 = s0.filterRequestId + 1 := rfl
    omega
  · exact fun s t d h => completeLoadQueueData_of_ne s t d h

/-- Witness for C1: a response tagged 999 against a state whose current
request id is 0 is discarded. -/
theorem loadQueueData_latest_wins_witness :
    completeLoadQueueData idleViewerState 999 sampleQueueData = idleViewerState :=
  (loadQueueData_latest_wins idleViewerState sampleQueueData sampleQueueData).2
    idleViewerState 999 sampleQueueData (by decide)

/-- C10: a queue-fetch error whose tag is still current empties the records,
original records, both stats objects and the filter options, while the four
user-selected filter fields are left untouched. -/
theorem wiredQueueError_frame (s : ViewerState) (t : Nat)
    (hcur : s.filterRequestId = t) :
    (wiredQueueError s t).records = []
    ∧ (wiredQueueError s t).originalRecords = []
    ∧ (wiredQueueError s t).originalStats = defaultStats
    ∧ (wiredQueueError s t).queueStats = defaultStats
    ∧ (wiredQueueError s t).filterOptions = emptyFilterOptions
    ∧ (wiredQueueError s t).statusFilter = s.statusFilter
    ∧ (wiredQueueError s t).caseTypeFilter = s.caseTypeFilter
    ∧ (wiredQueueError s t).dueDateFilter = s.dueDateFilter
    ∧ (wiredQueueError s t).activeTileFilter = s.activeTileFilter := by
  simp [wiredQueueError, hcur]

/-- Witness for C10 at the idle state with its current request id. -/
theorem wiredQueueError_frame_witness :
    (wiredQueueError idleViewerState 0).records = [] :=
  (wiredQueueError_frame idleViewerState 0 rfl).1

/-- C2 counterexample: the queue viewer's successful assign and release paths
publish nothing on the Refresh Bus — `assignRecordToUser` and
`handleReleaseAssignments` refresh locally and dispatch DOM events only — so
the publish side effect does not occur in every component performing claim and
release. -/
theorem viewer_success_paths_no_publish_counterexample :
    busPublishCount (assignRecordToUserEffects "recA" ⟨true, "", "recA"⟩) = 0
    ∧ busPublishCount (handleReleaseAssignmentsEffects true) = 0 := by
  decide

/-- C2 (amended): the claim-record button publishes exactly one refresh-bus
signal on every successful claim (`"assign"`) and every successful release
(`"release"`); the queue viewer's own success paths for assign and release
publish zero refresh-bus signals. -/
theorem publish_on_success_amended (result : AssignResult) (rid : String) :
    (result.success = true →
      busPublishCount (handleClaimRecordEffects (some rid) true result) = 1
      ∧ UiEffect.publishBus "assign" ∈ handleClaimRecordEffects (some rid) true result)
    ∧ (busPublishCount (handleReleaseRecordEffects true true) = 1
      ∧ UiEffect.publishBus "release" ∈ handleReleaseRecordEffects true true)
    ∧ (result.success = true → busPublishCount (assignRecordToUserEffects rid result) = 0)
    ∧ busPublishCount (handleReleaseAssignmentsEffects true) = 0 := by
  refine ⟨?_, by decide, ?_, by decide⟩
  · intro hs
    refine ⟨?_, ?_⟩ <;> simp [handleClaimRecordEffects, hs, busPublishCount]
  · intro hs
    simp [assignRecordToUserEffects, hs, busPublishCount]

/-- Witness for C2 at a successful assign result. -/
theorem publish_on_success_amended_witness :
    busPublishCount (handleClaimRecordEffects (some "recA") true ⟨true, "", "recA"⟩) = 1 :=
  ((publish_on_success_amended ⟨true, "", "recA"⟩ "recA").1 rfl).1

/-- C7 counterexample: with the message context unavailable but the broadcast
channel open and storage supported, `publish` emits only the storage write —
the available broadcast channel receives nothing, so the signal is not pushed
on every available channel. -/
theorem publish_fallback_skips_broadcast_counterexample :
    publishRefresh ⟨false, true, true⟩ "origin-1" "assign"
      = [⟨BusChannel.storage, "assign", "origin-1", "leadQueueViewer"⟩]
    ∧ (⟨false, true, true⟩ : ChannelAvailability).broadcastChannel = true := by
  decide

/-- C7 (amended): every emitted signal is tagged with this client's
`originId` and the requested action; when the message context is available the
signal is pushed on LMS and on each further available channel (broadcast,
storage); when the message context is unavailable only the storage write
happens, even if the broadcast channel is available. -/
theorem publish_channels_amended (env : ChannelAvailability) (originId action : String) :
    (∀ sig ∈ publishRefresh env originId action,
        sig.originId = originId ∧ sig.action = action)
    ∧ (env.messageContext = true →
        ∃ sig ∈ publishRefresh env originId action, sig.channel = BusChannel.lms)
    ∧ (env.messageContext = true → env.broadcastChannel = true →
        ∃ sig ∈ publishRefresh env originId action, sig.channel = BusChannel.broadcast)
    ∧ (env.messageContext = true → env.storageSupported = true →
        ∃ sig ∈ publishRefresh env originId action, sig.channel = BusChannel.storage)
    ∧ (env.messageContext = false →
        ∀ sig ∈ publishRefresh env originId action, sig.channel = BusChannel.storage) := by
  obtain ⟨mc, bc, st⟩ := env
  cases mc <;> cases bc <;> cases st <;>
    simp [publishRefresh, publishToBroadcast, publishToStorage]

/-- Witness for C7 in the fallback configuration. -/
theorem publish_channels_amended_witness :
    ∀ sig ∈ publishRefresh ⟨false, true, true⟩ "origin-1" "assign",
      sig.channel = BusChannel.storage :=
  (publish_channels_amended ⟨false, true, true⟩ "origin-1" "assign").2.2.2.2 rfl

/-- Filtering twice with the same predicate equals filtering once. -/
lemma filter_self_idem {α : Type} (p : α → Bool) (l : List α) :
    (l.filter p).filter p = l.filter p := by
  induction l with
  | nil => rfl
  | cons a t ih =>
    by_cases h : p a <;> simp [List.filter_cons, h, ih]

/-- C9: release is idempotent on the client state: running
`handleReleaseAssignments` twice yields the same final state as running it
once, the second run reports success (releasing an absent lease is a no-op
success), and one run already leaves `hasAssignments = false` with the
session assignment timestamp cleared. -/
theorem release_idempotent (s : ReleaseClientState) :
    (handleReleaseAssignmentsRun (handleReleaseAssignmentsRun s).1).1
      = (handleReleaseAssignmentsRun s).1
    ∧ (handleReleaseAssignmentsRun (handleReleaseAssignmentsRun s).1).2 = true
    ∧ (handleReleaseAssignmentsRun s).1.hasAssignments = false
    ∧ (handleReleaseAssignmentsRun s).1.sessionAssignment = none := by
  refine ⟨?_, rfl, rfl, rfl⟩
  simp [handleReleaseAssignmentsRun, releaseUserAssignments, clearAssignmentTimestamp,
    filter_self_idem]

end LeadQueue
